import Mathlib

/-
  Shallow embedding of the clankervids ingestion pipeline.

  Sources embedded:
    - reddit_curator.py   (RedditCurator: is_robot_content, categorize,
                           extract_youtube_id, best_youtube_thumbnail,
                           video_exists, add_video, fetch_subreddit, run_scan)
    - robot_curator.py    (RobotCurator: is_robot_content, categorize_video,
                           video_exists, add_video)
    - better_thumbnails.py (best_youtube_thumbnail, same logic as the
                           RedditCurator copy up to the probe timeout)
    - backend/app.py      (get_videos sort keys: trending score and the
                           popular sort key)

  Strings are modelled as List Char.  Python str.lower and SQLite LOWER are
  modelled ASCII-faithfully (only A-Z are shifted); Python str.strip strips
  the ASCII whitespace characters.  Network and database I/O are modelled by
  explicit oracles: an HTTP HEAD probe is a function from URL to an optional
  (status, content-length) pair where none stands for a raised exception, a
  feed fetch is a function from (subreddit, sort) to an optional
  (status, posts) pair, and the videos table is an explicit list of rows
  threaded through the functions.
-/

/-- Literal helper: the character list of a string literal. -/
def str (s : String) : List Char := s.data

/-- ASCII lower-casing of one character, as Python str.lower and SQLite
LOWER behave on ASCII input. -/
def lowerChar (c : Char) : Char :=
  if 'A' ≤ c ∧ c ≤ 'Z' then Char.ofNat (c.toNat + 32) else c

/-- ASCII lower-casing of a string. -/
def lowerStr (s : List Char) : List Char := s.map lowerChar

/-- The ASCII whitespace characters stripped by Python str.strip. -/
def isPySpace (c : Char) : Bool :=
  decide (c = ' ' ∨ c = '\t' ∨ c = '\n' ∨ c = '\r' ∨ c = '\x0b' ∨ c = '\x0c')

/-- Python str.strip: drop whitespace from both ends. -/
def pyStrip (l : List Char) : List Char :=
  ((l.dropWhile isPySpace).reverse.dropWhile isPySpace).reverse

/-- startsWith pat s: pat occurs at the head of s. -/
def startsWith : List Char → List Char → Bool
  | [], _ => true
  | _ :: _, [] => false
  | a :: pat, b :: s => decide (a = b) && startsWith pat s

/-- containsSub needle hay: needle occurs somewhere in hay, the semantics of
the Python expression needle in hay on strings. -/
def containsSub (needle : List Char) : List Char → Bool
  | [] => startsWith needle []
  | c :: rest => startsWith needle (c :: rest) || containsSub needle rest

/-- A regex word character over ASCII input. -/
def isWordChar (c : Char) : Bool :=
  decide (('a' ≤ c ∧ c ≤ 'z') ∨ ('A' ≤ c ∧ c ≤ 'Z') ∨ ('0' ≤ c ∧ c ≤ '9') ∨ c = '_')

/-- After a keyword match, the rest of the text must start with a non-word
character (or be empty). -/
def tailBoundary (kw text : List Char) : Bool :=
  match List.drop kw.length text with
  | [] => true
  | c :: _ => !isWordChar c

/-- A word-boundary match of kw at the head of text, given whether the
previous character was absent or a non-word character. -/
def wbHere (kw text : List Char) (prevOk : Bool) : Bool :=
  prevOk && startsWith kw text && tailBoundary kw text

/-- Scan of text for a word-boundary occurrence of kw. -/
def wbScan (kw : List Char) (prevOk : Bool) : List Char → Bool
  | [] => wbHere kw [] prevOk
  | c :: rest => wbHere kw (c :: rest) prevOk || wbScan kw (!isWordChar c) rest

/-- Python re.search of a backslash-b bounded keyword made of word
characters: kw occurs in text bounded by non-word characters or the string
ends. -/
def wordMatch (kw text : List Char) : Bool := wbScan kw true text

/- ---------------------------------------------------------------------
   RedditCurator keyword configuration (reddit_curator.py, constructor)
   --------------------------------------------------------------------- -/

/-- Subreddits that always qualify, no keyword check needed. -/
def always_qualify_subs : List (List Char) :=
  [str "shittyrobots", str "robotics", str "battlebots", str "bostondynamics",
   str "mechanicalgifs", str "humanoidrobots", str "drones", str "fpv",
   str "multicopter", str "diydrones"]

/-- Keywords matched as raw substrings. -/
def robot_keywords_substring : List (List Char) :=
  [str "robot", str "robotic", str "humanoid", str "droid",
   str "battlebots", str "battlebot",
   str "boston dynamics", str "tesla bot", str "tesla optimus",
   str "unitree", str "agility robotics", str "1x technologies",
   str "figure robot", str "ameca", str "sanctuary ai",
   str "apptronik", str "physical intelligence",
   str "quadruped", str "exoskeleton", str "bionic", str "cyborg",
   str "robot arm", str "robot dog", str "robot hand",
   str "warehouse robot", str "delivery robot", str "surgical robot",
   str "industrial robot", str "cobots", str "cobot",
   str "quadcopter", str "multicopter", str "uav", str "unmanned aerial",
   str "drone swarm", str "drone show", str "drone fail",
   str "artificial intelligence", str "machine learning",
   str "self-driving", str "automation", str "automated",
   str "servo", str "actuator", str "chatgpt"]

/-- Keywords that need word-boundary matching. -/
def robot_keywords_exact : List (List Char) :=
  [str "ai", str "drone", str "drones", str "gpt", str "neural", str "android",
   str "autonomous", str "mechanical", str "fpv", str "uav"]

/-- Brand names that require a helper word nearby to count. -/
def contextual_keywords : List (List Char) :=
  [str "atlas", str "spot", str "optimus", str "figure", str "digit",
   str "neo", str "ameca", str "agility", str "nao", str "pepper"]

/-- Helper words for the contextual keywords. -/
def context_helpers : List (List Char) :=
  [str "robot", str "humanoid", str "boston dynamics", str "unitree", str "tesla",
   str "walking", str "bipedal", str "legged", str "autonomous", str "ai", str "drone",
   str "robotic", str "arm", str "manipulation"]

/-- Fail keywords for Reddit categorization. -/
def fail_keywords : List (List Char) :=
  [str "fail", str "fails", str "falling", str "crash", str "crashed", str "oops",
   str "malfunction", str "broken", str "glitch", str "shitty", str "disaster",
   str "explosion", str "explode", str "breakdown", str "error", str "gone wrong",
   str "dropped", str "tipped", str "fell", str "stumble"]

/-- Battle keywords for Reddit categorization. -/
def battle_keywords : List (List Char) :=
  [str "battle", str "fight", str "vs", str "combat", str "destroy", str "battlebots"]

/-- RedditCurator.is_robot_content: dedicated subs always qualify; otherwise
substring keywords, then word-boundary keywords, then contextual keywords
that also need a helper substring. -/
def reddit_is_robot_content (title subreddit : List Char) : Bool :=
  if lowerStr subreddit ∈ always_qualify_subs then true
  else
    let t := lowerStr title
    robot_keywords_substring.any (fun kw => containsSub kw t)
    || robot_keywords_exact.any (fun kw => wordMatch kw t)
    || contextual_keywords.any
         (fun kw => wordMatch kw t && context_helpers.any (fun h => containsSub h t))

/-- RedditCurator.categorize: fail subs or fail keywords, then the battle
sub or battle keywords, else highlights. -/
def reddit_categorize (title subreddit : List Char) : List Char :=
  let t := lowerStr title
  let s := lowerStr subreddit
  if s = str "shittyrobots" ∨ s = str "whatcouldgowrong"
      ∨ fail_keywords.any (fun kw => containsSub kw t) = true then
    str "fails"
  else if s = str "battlebots"
      ∨ battle_keywords.any (fun kw => containsSub kw t) = true then
    str "battles"
  else
    str "highlights"

/- ---------------------------------------------------------------------
   RobotCurator keyword configuration and classifier (robot_curator.py)
   --------------------------------------------------------------------- -/

/-- RobotCurator must-have keywords, all matched as raw substrings. -/
def must_have_keywords : List (List Char) :=
  [str "robot", str "robots", str "robotic", str "humanoid",
   str "boston dynamics", str "atlas", str "spot", str "optimus",
   str "tesla bot", str "figure", str "digit", str "unitree",
   str "android", str "automaton", str "mech", str "mechanical",
   str "drone", str "drones", str "quadruped", str "bipedal",
   str "ai ", str " ai", str "artificial intelligence",
   str "machine learning", str "neural network",
   str "chatgpt", str "gpt-4", str "claude", str "gemini",
   str "autonomous", str "self-driving", str "robodog",
   str "exoskeleton", str "cyborg", str "bionic",
   str "industrial robot", str "robot arm", str "robotic arm",
   str "agility robotics", str "xiaomi cyberone", str "ameca",
   str "sophia robot", str "pepper robot", str "asimo"]

/-- RobotCurator fail keywords. -/
def rc_fail_keywords : List (List Char) :=
  [str "fail", str "fails", str "falling", str "crash", str "malfunction",
   str "error", str "bug", str "glitch", str "broken", str "mistake",
   str "oops", str "disaster"]

/-- RobotCurator epic keywords. -/
def epic_keywords : List (List Char) :=
  [str "amazing", str "incredible", str "insane", str "mind-blowing",
   str "impressive", str "breakthrough", str "revolutionary", str "wow",
   str "unbelievable"]

/-- RobotCurator battle keywords. -/
def rc_battle_keywords : List (List Char) :=
  [str "battle", str "fight", str "vs", str "competition", str "battlebots",
   str "combat", str "destroy"]

/-- RobotCurator exclude keywords: if the text contains one, skip. -/
def exclude_keywords : List (List Char) :=
  [str "kitten", str "cat", str "dog", str "puppy", str "baby",
   str "cooking", str "recipe", str "makeup", str "fashion",
   str "minecraft", str "fortnite", str "gaming walkthrough",
   str "music video", str "official video", str "lyric video",
   str "unboxing toy", str "kids", str "children"]

/-- The lower-cased concatenation title-space-description that
RobotCurator.is_robot_content classifies. -/
def robotText (title description : List Char) : List Char :=
  lowerStr (title ++ ' ' :: description)

/-- RobotCurator.is_robot_content: at least one must-have keyword and no
exclude keyword, both as raw substrings of the lower-cased text. -/
def robot_is_robot_content (title description : List Char) : Bool :=
  let text := robotText title description
  must_have_keywords.any (fun kw => containsSub kw text)
  && !(exclude_keywords.any (fun kw => containsSub kw text))

/-- RobotCurator.categorize_video: fail keywords first, then battle
keywords, then epic keywords, defaulting to highlights either way. -/
def robot_categorize_video (title : List Char) : List Char :=
  let t := lowerStr title
  if rc_fail_keywords.any (fun kw => containsSub kw t) = true then str "fails"
  else if rc_battle_keywords.any (fun kw => containsSub kw t) = true then str "battles"
  else if epic_keywords.any (fun kw => containsSub kw t) = true then str "highlights"
  else str "highlights"

/- ---------------------------------------------------------------------
   Thumbnail selection (reddit_curator.py best_youtube_thumbnail,
   better_thumbnails.py best_youtube_thumbnail)
   --------------------------------------------------------------------- -/

/-- The maxresdefault thumbnail URL variant (1280px). -/
def maxresUrl (yid : List Char) : List Char :=
  str "https://i.ytimg.com/vi/" ++ yid ++ str "/maxresdefault.jpg"

/-- The sddefault thumbnail URL variant (640px). -/
def sdUrl (yid : List Char) : List Char :=
  str "https://i.ytimg.com/vi/" ++ yid ++ str "/sddefault.jpg"

/-- The hqdefault thumbnail URL variant (480px). -/
def hqUrl (yid : List Char) : List Char :=
  str "https://i.ytimg.com/vi/" ++ yid ++ str "/hqdefault.jpg"

/-- The fixed probe order: highest resolution first. -/
def thumbCandidates (yid : List Char) : List (List Char) :=
  [maxresUrl yid, sdUrl yid, hqUrl yid]

/-- One candidate passes when the HEAD probe returns status 200 with a
content length above 5000 bytes; a raised exception (probe = none, also
covering an unparsable content-length header) never passes. -/
def probeGood (probe : List Char → Option (Nat × Nat)) (url : List Char) : Bool :=
  match probe url with
  | some (status, contentLength) => decide (status = 200) && decide (5000 < contentLength)
  | none => false

/-- best_youtube_thumbnail: first candidate in probe order that passes,
falling back to hqdefault when none does. -/
def best_youtube_thumbnail (probe : List Char → Option (Nat × Nat)) (yid : List Char) :
    List Char :=
  match (thumbCandidates yid).find? (probeGood probe) with
  | some url => url
  | none => hqUrl yid

/- ---------------------------------------------------------------------
   Engagement ranker (backend/app.py get_videos sort keys)
   --------------------------------------------------------------------- -/

/-- The weighted engagement sum used by the trending sort:
clanks * 10 + system_errors * 5 + views. -/
def engagement (clanks system_errors views : Nat) : Nat :=
  clanks * 10 + system_errors * 5 + views

/-- The recency bonus of the trending sort, as a function of the item age
in seconds: created within the last day, last 3 days, last 7 days, else
nothing. -/
def recencyBonus (ageSeconds : Nat) : Nat :=
  if ageSeconds ≤ 86400 then 500
  else if ageSeconds ≤ 259200 then 200
  else if ageSeconds ≤ 604800 then 50
  else 0

/-- The trending sort key. -/
def trendingScore (clanks system_errors views ageSeconds : Nat) : Nat :=
  engagement clanks system_errors views + recencyBonus ageSeconds

/-- The popular sort key: ORDER BY views DESC, a function of the row
counters that reads only the view count. -/
def popularKey (_clanks _system_errors views : Nat) : Nat := views

/- ---------------------------------------------------------------------
   The videos table and the identity resolver
   --------------------------------------------------------------------- -/

/-- One stored row of the videos table, restricted to the columns the
ingestion decisions read back: the natural keys (youtube_id, video_url,
title) and the assigned category.  Display-only columns (description,
creator, counters, timestamps, thumbnail_url, status, duration) never
influence acceptance, deduplication or categorization and are omitted. -/
structure Row where
  youtube_id : Option (List Char)
  video_url : List Char
  title : List Char
  category : List Char
deriving DecidableEq

/-- RedditCurator.video_exists on an explicit store: the youtube_id check
runs only when an id is available, then the exact video_url check, then
the title check, which runs only for a nonempty candidate title and
compares LOWER(SUBSTR(stored title, 1, 50)) against the candidate
title[:50].lower().strip(). -/
def redditVideoExists (store : List Row) (video_url : List Char)
    (youtube_id : Option (List Char)) (title : List Char) : Bool :=
  (match youtube_id with
   | some y => store.any fun r => decide (r.youtube_id = some y)
   | none => false)
  || (store.any fun r => decide (r.video_url = video_url))
  || (decide (title ≠ []) && store.any fun r =>
        decide (lowerStr (List.take 50 r.title) = pyStrip (lowerStr (List.take 50 title))))

/-- RedditCurator.video_exists with its own database connection: the
whole body is wrapped in a try/except returning False, so an unreachable
store (none) reports not-a-duplicate. -/
def redditVideoExistsDb (lookup : Option (List Row)) (video_url : List Char)
    (youtube_id : Option (List Char)) (title : List Char) : Bool :=
  match lookup with
  | some store => redditVideoExists store video_url youtube_id title
  | none => false

/-- RobotCurator.video_exists: only the youtube_id column is checked. -/
def robot_video_exists (store : List Row) (youtube_id : List Char) : Bool :=
  store.any fun r => decide (r.youtube_id = some youtube_id)

/-- RobotCurator.video_exists with its own database connection, again
returning False from its except arm when the store is unreachable. -/
def robotVideoExistsDb (lookup : Option (List Row)) (youtube_id : List Char) : Bool :=
  match lookup with
  | some store => robot_video_exists store youtube_id
  | none => false

/- ---------------------------------------------------------------------
   extract_youtube_id (reddit_curator.py)
   --------------------------------------------------------------------- -/

/-- A character of a YouTube video id: the regex class a-zA-Z0-9_- . -/
def isYtIdChar (c : Char) : Bool :=
  decide (('a' ≤ c ∧ c ≤ 'z') ∨ ('A' ≤ c ∧ c ≤ 'Z') ∨ ('0' ≤ c ∧ c ≤ '9')
          ∨ c = '_' ∨ c = '-')

/-- Try one literal pattern at the head of s, demanding exactly 11 id
characters right after it, which become the captured id. -/
def tryPatId (pat s : List Char) : Option (List Char) :=
  if startsWith pat s = true then
    let idc := List.take 11 (List.drop pat.length s)
    if idc.length = 11 ∧ idc.all isYtIdChar = true then some idc else none
  else none

/-- The alternation of the first regex: youtube.com/watch?v= or
youtu.be/ followed by 11 id characters. -/
def patAlt (s : List Char) : Option (List Char) :=
  match tryPatId (str "youtube.com/watch?v=") s with
  | some r => some r
  | none => tryPatId (str "youtu.be/") s

/-- Leftmost match: try the matcher at every suffix, left to right. -/
def scanFor (f : List Char → Option (List Char)) : List Char → Option (List Char)
  | [] => f []
  | c :: rest =>
    match f (c :: rest) with
    | some r => some r
    | none => scanFor f rest

/-- RedditCurator.extract_youtube_id: the watch/short-link regex first,
then the embed regex, None when neither matches. -/
def extract_youtube_id (url : List Char) : Option (List Char) :=
  match scanFor patAlt url with
  | some r => some r
  | none => scanFor (fun s => tryPatId (str "youtube.com/embed/") s) url

/- ---------------------------------------------------------------------
   RedditCurator.add_video and run_scan
   --------------------------------------------------------------------- -/

/-- One Reddit post as read by add_video.  The optional fields model the
dict lookups with defaults; display-only fields (score, author, preview
and thumbnail data) never influence acceptance, deduplication or
categorization and are omitted. -/
structure Post where
  title : Option (List Char)
  url : Option (List Char)
  subreddit : Option (List Char)
  is_video : Bool
  media_fallback_url : Option (List Char)
deriving DecidableEq

/-- post.get with default Untitled. -/
def postTitle (p : Post) : List Char := p.title.getD (str "Untitled")

/-- post.get with default empty string. -/
def postUrl (p : Post) : List Char := p.url.getD []

/-- post.get with default empty string. -/
def postSubreddit (p : Post) : List Char := p.subreddit.getD []

/-- The canonical watch URL rebuilt from an extracted id. -/
def watchUrlOf (yid : List Char) : List Char :=
  str "https://www.youtube.com/watch?v=" ++ yid

/-- The row add_video would insert for a post, or none when the post is
not a usable video: a YouTube post stores the extracted id and the
canonical watch URL, a v.redd.it post stores the post URL, any other post
flagged is_video stores the reddit_video fallback URL (defaulting to the
post URL), and anything else is rejected.  The stored title is truncated
to 200 characters. -/
def insertedRow (p : Post) : Option Row :=
  match extract_youtube_id (postUrl p) with
  | some yid =>
      some ⟨some yid, watchUrlOf yid, List.take 200 (postTitle p),
            reddit_categorize (postTitle p) (postSubreddit p)⟩
  | none =>
      if containsSub (str "v.redd.it") (postUrl p) = true then
        some ⟨none, postUrl p, List.take 200 (postTitle p),
              reddit_categorize (postTitle p) (postSubreddit p)⟩
      else if p.is_video = true then
        some ⟨none, p.media_fallback_url.getD (postUrl p), List.take 200 (postTitle p),
              reddit_categorize (postTitle p) (postSubreddit p)⟩
      else none

/-- RedditCurator.add_video with an explicit lookup connection for the
duplicate check (some store normally, none when the store is unreachable
from video_exists): relevance filter, then duplicate check, then
insert-or-reject, returning whether a row was added and the new store. -/
def reddit_add_video_db (lookup : Option (List Row)) (p : Post) (store : List Row) :
    Bool × List Row :=
  if reddit_is_robot_content (postTitle p) (postSubreddit p) = true then
    if redditVideoExistsDb lookup (postUrl p) (extract_youtube_id (postUrl p))
        (postTitle p) = true then
      (false, store)
    else
      match insertedRow p with
      | some r => (true, store ++ [r])
      | none => (false, store)
  else (false, store)

/-- RedditCurator.add_video in the normal case: the duplicate lookup reads
the same store the insert writes. -/
def reddit_add_video (p : Post) (store : List Row) : Bool × List Row :=
  reddit_add_video_db (some store) p store

/-- Fold of add_video over one fetched page of posts, counting additions
as run_scan does. -/
def scanPosts : List Post → List Row → Nat × List Row
  | [], store => (0, store)
  | p :: ps, store =>
    let res := reddit_add_video p store
    let rest := scanPosts ps res.2
    ((if res.1 then 1 else 0) + rest.1, rest.2)

/-- RedditCurator.fetch_subreddit on an explicit response: a raised
exception (none: timeout or malformed payload) or a non-200 status yields
the empty post list, a 200 response yields its posts. -/
def fetch_subreddit (resp : Option (Nat × List Post)) : List Post :=
  match resp with
  | some (code, posts) => if code = 200 then posts else []
  | none => []

/-- RedditCurator.run_scan over an explicit fetcher oracle keyed by
subreddit and sort mode: every subreddit gets a top pass and a hot pass,
each fed through add_video, and the addition counts are summed. -/
def run_scan (fetcher : List Char → List Char → Option (Nat × List Post)) :
    List (List Char) → List Row → Nat × List Row
  | [], store => (0, store)
  | sub :: rest, store =>
    let r1 := scanPosts (fetch_subreddit (fetcher sub (str "top"))) store
    let r2 := scanPosts (fetch_subreddit (fetcher sub (str "hot"))) r1.2
    let r3 := run_scan fetcher rest r2.2
    (r1.1 + r2.1 + r3.1, r3.2)

/- ---------------------------------------------------------------------
   RobotCurator.add_video
   --------------------------------------------------------------------- -/

/-- One yt-dlp metadata record as read by RobotCurator.add_video,
restricted to the fields that influence its decisions; the id is None
when yt-dlp reports none. -/
structure VideoInfo where
  id : Option (List Char)
  title : List Char
  description : List Char
  webpage_url : List Char
deriving DecidableEq

/-- RobotCurator.add_video: relevance filter, then the id-only duplicate
check (a None id matches no row, as the SQL NULL comparison does), then
insert.  The stored title is truncated to 200 characters. -/
def robot_add_video (vi : VideoInfo) (store : List Row) : Bool × List Row :=
  if robot_is_robot_content vi.title vi.description = true then
    match vi.id with
    | some yid =>
      if robot_video_exists store yid = true then (false, store)
      else (true, store ++ [⟨some yid, vi.webpage_url, List.take 200 vi.title,
                             robot_categorize_video vi.title⟩])
    | none =>
      (true, store ++ [⟨none, vi.webpage_url, List.take 200 vi.title,
                        robot_categorize_video vi.title⟩])
  else (false, store)

/- ---------------------------------------------------------------------
   Concrete inputs used by witnesses and counterexamples
   --------------------------------------------------------------------- -/

/-- A Reddit post with no YouTube id, a reddit_video fallback URL that
differs from the post URL, and a title whose first characters include
leading whitespace. -/
def pBad : Post :=
  ⟨some (str " robot x"), some (str "https://example.com/a"), some (str "robotics"),
   true, some (str "https://cdn.example/b")⟩

/-- The row add_video inserts for pBad. -/
def rBad : Row := ⟨none, str "https://cdn.example/b", str " robot x", str "highlights"⟩

/-- A Reddit post whose stored row keeps a queried key: a v.redd.it post
with a clean title. -/
def pGood : Post :=
  ⟨some (str "Robot does a flip"), some (str "https://v.redd.it/abc"), some (str "videos"),
   false, none⟩

/-- A post whose stored row keeps a key that the duplicate check queries:
either a YouTube id is extracted from its URL, or its title is nonempty
and the first-50-character prefix is unchanged by whitespace stripping. -/
def goodKey (p : Post) : Bool :=
  (extract_youtube_id (postUrl p)).isSome
  || (decide (postTitle p ≠ [])
      && decide (pyStrip (lowerStr (List.take 50 (postTitle p)))
                  = lowerStr (List.take 50 (postTitle p))))

/-- A concrete YouTube id for the C6 witness. -/
def c6yid : List Char := str "abcdefghijk"

/-- A probe where only the hqdefault variant is large enough. -/
def c6probe : List Char → Option (Nat × Nat) :=
  fun u => if u = hqUrl c6yid then some (200, 6000) else some (200, 100)

/-- A failed fetch response: a raised exception (timeout, malformed
payload) or a status other than 200. -/
def respFailed : Option (Nat × List Post) → Bool
  | none => true
  | some (code, _) => !(decide (code = 200))

/-- Replace every failed response by an empty 200 response. -/
def normalizeResp : Option (Nat × List Post) → Option (Nat × List Post)
  | some (code, posts) => if code = 200 then some (200, posts) else some (200, [])
  | none => some (200, [])

/- ---------------------------------------------------------------------
   Helper lemmas about the identity resolver
   --------------------------------------------------------------------- -/

/-- Propositional characterization of RedditCurator.video_exists. -/
theorem redditVideoExists_iff (store : List Row) (video_url : List Char)
    (youtube_id : Option (List Char)) (title : List Char) :
    redditVideoExists store video_url youtube_id title = true ↔
      ((∃ y, youtube_id = some y ∧ ∃ r ∈ store, r.youtube_id = some y)
       ∨ (∃ r ∈ store, r.video_url = video_url)
       ∨ (title ≠ [] ∧ ∃ r ∈ store,
            lowerStr (List.take 50 r.title) = pyStrip (lowerStr (List.take 50 title)))) := by
  cases youtube_id with
  | none => simp [redditVideoExists, List.any_eq_true]
  | some y =>
    simp [redditVideoExists, List.any_eq_true]
    exact or_assoc

/-- A positive duplicate verdict survives growing the store. -/
theorem redditVideoExists_mono (s₁ s₂ : List Row) (video_url : List Char)
    (youtube_id : Option (List Char)) (title : List Char)
    (hsub : ∀ r, r ∈ s₁ → r ∈ s₂)
    (h : redditVideoExists s₁ video_url youtube_id title = true) :
    redditVideoExists s₂ video_url youtube_id title = true := by
  rw [redditVideoExists_iff] at h ⊢
  rcases h with ⟨y, hy, r, hr, hry⟩ | ⟨r, hr, hru⟩ | ⟨hne, r, hr, hrt⟩
  · exact Or.inl ⟨y, hy, r, hsub r hr, hry⟩
  · exact Or.inr (Or.inl ⟨r, hsub r hr, hru⟩)
  · exact Or.inr (Or.inr ⟨hne, r, hsub r hr, hrt⟩)

/- ---------------------------------------------------------------------
   C2
   --------------------------------------------------------------------- -/

/-- C2 (amended): in the RobotCurator classifier the exclude list
overrides the relevance keywords: every candidate whose lower-cased
title+description text contains a must-have keyword and an exclude phrase
as substrings is rejected.  (The RedditCurator classifier has no exclude
list; see the counterexample.) -/
theorem c2_amended (title description : List Char)
    (_hrobot : must_have_keywords.any
       (fun kw => containsSub kw (robotText title description)) = true)
    (hexcl : exclude_keywords.any
       (fun kw => containsSub kw (robotText title description)) = true) :
    robot_is_robot_content title description = false := by
  unfold robot_is_robot_content
  simp [hexcl]

/-- C2 witness: the kitten/robot candidate is rejected by RobotCurator. -/
theorem c2_witness : robot_is_robot_content (str "kitten plays with robot toy") [] = false :=
  c2_amended (str "kitten plays with robot toy") [] (by decide) (by decide)

/-- C2 counterexample: the RedditCurator classifier accepts the
kitten/robot candidate from a non-dedicated subreddit even though its
title contains an exclude phrase, so the exclude list does not override
acceptance for every classifier. -/
theorem c2_counterexample :
    exclude_keywords.any
      (fun kw => containsSub kw (lowerStr (str "kitten plays with robot toy"))) = true
    ∧ reddit_is_robot_content (str "kitten plays with robot toy") (str "videos") = true := by
  decide

/- ---------------------------------------------------------------------
   C3
   --------------------------------------------------------------------- -/

/-- C3 (amended): the Reddit identity resolver reports a duplicate iff
one of three checks matches a stored row: the external id check (only
when an id is available), the exact video URL check, or, for a nonempty
candidate title, the title check comparing the stored title lower-cased
untrimmed first-50 prefix to the candidate lower-cased whitespace-trimmed
first-50 prefix. -/
theorem c3_amended (store : List Row) (video_url : List Char)
    (youtube_id : Option (List Char)) (title : List Char) :
    redditVideoExists store video_url youtube_id title = true ↔
      ((∃ y, youtube_id = some y ∧ ∃ r ∈ store, r.youtube_id = some y)
       ∨ (∃ r ∈ store, r.video_url = video_url)
       ∨ (title ≠ [] ∧ ∃ r ∈ store,
            lowerStr (List.take 50 r.title) = pyStrip (lowerStr (List.take 50 title)))) :=
  redditVideoExists_iff store video_url youtube_id title

/-- C3 counterexample: with a stored title carrying a trailing space in
its first 50 characters, the trimmed first-50 prefixes of the stored and
candidate titles coincide, yet the resolver reports no duplicate: the
stored side of the title check is not trimmed. -/
theorem c3_counterexample :
    pyStrip (lowerStr (List.take 50 (str "robot ")))
      = pyStrip (lowerStr (List.take 50 (str "robot")))
    ∧ redditVideoExists [⟨none, str "u1", str "robot ", str "fails"⟩]
        (str "u2") none (str "robot") = false := by
  decide

/- ---------------------------------------------------------------------
   C4
   --------------------------------------------------------------------- -/

/-- C4 (amended): in the RedditCurator classifier the contextual token
spot matches only as a whole word: for every non-dedicated subreddit,
the title Spotted in the wild (no other relevance signal) is rejected,
while Spot the robot is accepted.  (The RobotCurator classifier matches
spot as a raw substring; see the counterexample.) -/
theorem c4_amended (s : List Char) (hs : lowerStr s ∉ always_qualify_subs) :
    reddit_is_robot_content (str "Spotted in the wild") s = false
    ∧ reddit_is_robot_content (str "Spot the robot") s = true := by
  constructor
  · unfold reddit_is_robot_content
    rw [if_neg hs]
    decide
  · unfold reddit_is_robot_content
    rw [if_neg hs]
    decide

/-- C4 witness at the non-dedicated subreddit videos. -/
theorem c4_witness :
    reddit_is_robot_content (str "Spotted in the wild") (str "videos") = false
    ∧ reddit_is_robot_content (str "Spot the robot") (str "videos") = true :=
  c4_amended (str "videos") (by decide)

/-- C4 counterexample: spot has no whole-word occurrence in the title
They spotted a deer, yet the RobotCurator classifier accepts it because
its keywords are matched as raw substrings. -/
theorem c4_counterexample :
    wordMatch (str "spot") (lowerStr (str "They spotted a deer")) = false
    ∧ robot_is_robot_content (str "They spotted a deer") [] = true := by
  decide

/- ---------------------------------------------------------------------
   C5
   --------------------------------------------------------------------- -/

/-- C5 (amended): in both curators, a title matching a fail keyword and a
battle keyword is categorized fails; a title matching neither defaults to
highlights, in the Reddit curator provided the subreddit itself is not
one of the category-mapped subs (shittyrobots, whatcouldgowrong,
battlebots). -/
theorem c5_amended (t s : List Char) :
    (fail_keywords.any (fun kw => containsSub kw (lowerStr t)) = true →
     battle_keywords.any (fun kw => containsSub kw (lowerStr t)) = true →
     reddit_categorize t s = str "fails")
    ∧ (rc_fail_keywords.any (fun kw => containsSub kw (lowerStr t)) = true →
       rc_battle_keywords.any (fun kw => containsSub kw (lowerStr t)) = true →
       robot_categorize_video t = str "fails")
    ∧ (fail_keywords.any (fun kw => containsSub kw (lowerStr t)) = false →
       battle_keywords.any (fun kw => containsSub kw (lowerStr t)) = false →
       lowerStr s ≠ str "shittyrobots" → lowerStr s ≠ str "whatcouldgowrong" →
       lowerStr s ≠ str "battlebots" →
       reddit_categorize t s = str "highlights")
    ∧ (rc_fail_keywords.any (fun kw => containsSub kw (lowerStr t)) = false →
       rc_battle_keywords.any (fun kw => containsSub kw (lowerStr t)) = false →
       robot_categorize_video t = str "highlights") := by
  refine ⟨?_, ?_, ?_, ?_⟩
  · intro hf _hb
    simp [reddit_categorize, hf]
  · intro hf _hb
    simp [robot_categorize_video, hf]
  · intro hf hb h1 h2 h3
    simp [reddit_categorize, hf, hb, h1, h2, h3]
  · intro hf hb
    simp [robot_categorize_video, hf, hb]

/-- C5 witness: a title with both keyword kinds is fails in both
curators; a title with neither is highlights in both. -/
theorem c5_witness :
    reddit_categorize (str "Robot battle fail compilation") (str "videos") = str "fails"
    ∧ robot_categorize_video (str "Robot battle fail compilation") = str "fails"
    ∧ reddit_categorize (str "Robot montage") (str "videos") = str "highlights"
    ∧ robot_categorize_video (str "Robot montage") = str "highlights" := by
  refine ⟨?_, ?_, ?_, ?_⟩
  · exact (c5_amended (str "Robot battle fail compilation") (str "videos")).1
      (by decide) (by decide)
  · exact (c5_amended (str "Robot battle fail compilation") (str "videos")).2.1
      (by decide) (by decide)
  · exact (c5_amended (str "Robot montage") (str "videos")).2.2.1
      (by decide) (by decide) (by decide) (by decide) (by decide)
  · exact (c5_amended (str "Robot montage") (str "videos")).2.2.2
      (by decide) (by decide)

/-- C5 counterexample: a title matching neither fail nor battle keywords
does not default to highlights in the Reddit curator when the subreddit
is Battlebots. -/
theorem c5_counterexample :
    fail_keywords.any (fun kw => containsSub kw (lowerStr (str "Robot montage"))) = false
    ∧ battle_keywords.any (fun kw => containsSub kw (lowerStr (str "Robot montage"))) = false
    ∧ reddit_categorize (str "Robot montage") (str "Battlebots") = str "battles" := by
  decide

/- ---------------------------------------------------------------------
   C6
   --------------------------------------------------------------------- -/

/-- C6: thumbnail selection probes maxresdefault, sddefault, hqdefault in
this order and returns the first variant whose probe reports status 200
with more than 5000 bytes; in particular when only the lowest-resolution
variant passes, exactly that variant is returned. -/
theorem c6_thm (probe : List Char → Option (Nat × Nat)) (yid : List Char) :
    (probeGood probe (maxresUrl yid) = true →
       best_youtube_thumbnail probe yid = maxresUrl yid)
    ∧ (probeGood probe (maxresUrl yid) = false →
       probeGood probe (sdUrl yid) = true →
       best_youtube_thumbnail probe yid = sdUrl yid)
    ∧ (probeGood probe (maxresUrl yid) = false →
       probeGood probe (sdUrl yid) = false →
       probeGood probe (hqUrl yid) = true →
       best_youtube_thumbnail probe yid = hqUrl yid) := by
  refine ⟨?_, ?_, ?_⟩
  · intro h1
    simp [best_youtube_thumbnail, thumbCandidates, List.find?, h1]
  · intro h1 h2
    simp [best_youtube_thumbnail, thumbCandidates, List.find?, h1, h2]
  · intro h1 h2 h3
    simp [best_youtube_thumbnail, thumbCandidates, List.find?, h1, h2, h3]

/-- C6 witness: only the lowest-resolution variant passes and it is
returned. -/
theorem c6_witness : best_youtube_thumbnail c6probe c6yid = hqUrl c6yid :=
  (c6_thm c6probe c6yid).2.2 (by decide) (by decide) (by decide)

/- ---------------------------------------------------------------------
   C7
   --------------------------------------------------------------------- -/

/-- C7 (amended): a candidate from an always-qualify subreddit is
accepted whatever its title; and when the title matches no fail or battle
keyword its category is highlights, provided the subreddit is not itself
category-mapped (shittyrobots, whatcouldgowrong, battlebots). -/
theorem c7_amended (t s : List Char) (hq : lowerStr s ∈ always_qualify_subs) :
    reddit_is_robot_content t s = true
    ∧ (fail_keywords.any (fun kw => containsSub kw (lowerStr t)) = false →
       battle_keywords.any (fun kw => containsSub kw (lowerStr t)) = false →
       lowerStr s ≠ str "shittyrobots" → lowerStr s ≠ str "whatcouldgowrong" →
       lowerStr s ≠ str "battlebots" →
       reddit_categorize t s = str "highlights") := by
  constructor
  · simp [reddit_is_robot_content, hq]
  · intro hf hb h1 h2 h3
    simp [reddit_categorize, hf, hb, h1, h2, h3]

/-- C7 witness: the trusted robotics feed accepts a title with no robot
keyword, categorized highlights. -/
theorem c7_witness :
    reddit_is_robot_content (str "Tuesday livestream highlights") (str "robotics") = true
    ∧ reddit_categorize (str "Tuesday livestream highlights") (str "robotics")
        = str "highlights" :=
  ⟨(c7_amended (str "Tuesday livestream highlights") (str "robotics") (by decide)).1,
   (c7_amended (str "Tuesday livestream highlights") (str "robotics") (by decide)).2
     (by decide) (by decide) (by decide) (by decide) (by decide)⟩

/-- C7 counterexample: shittyrobots is a trusted (always-qualify)
subreddit, the title matches no fail or battle keyword, yet the category
is fails, not the generic highlight category. -/
theorem c7_counterexample :
    lowerStr (str "shittyrobots") ∈ always_qualify_subs
    ∧ fail_keywords.any
        (fun kw => containsSub kw (lowerStr (str "Tuesday livestream highlights"))) = false
    ∧ battle_keywords.any
        (fun kw => containsSub kw (lowerStr (str "Tuesday livestream highlights"))) = false
    ∧ reddit_categorize (str "Tuesday livestream highlights") (str "shittyrobots")
        = str "fails" := by
  decide

/- ---------------------------------------------------------------------
   C8
   --------------------------------------------------------------------- -/

/-- C8 (amended): the trending score is the weighted engagement sum
clanks*10 + system_errors*5 + views plus a recency bonus that decays in
discrete steps, strictly decreasing across the age bands and zero beyond
7 days; the popular order sorts by view count alone. -/
theorem c8_amended (c e v a1 a2 a3 a4 : Nat)
    (h1 : a1 ≤ 86400) (h2a : 86400 < a2) (h2b : a2 ≤ 259200)
    (h3a : 259200 < a3) (h3b : a3 ≤ 604800) (h4 : 604800 < a4) :
    (∀ a, trendingScore c e v a = c * 10 + e * 5 + v + recencyBonus a)
    ∧ recencyBonus a1 = 500 ∧ recencyBonus a2 = 200
    ∧ recencyBonus a3 = 50 ∧ recencyBonus a4 = 0
    ∧ recencyBonus a2 < recencyBonus a1 ∧ recencyBonus a3 < recencyBonus a2
    ∧ recencyBonus a4 < recencyBonus a3
    ∧ (∀ c1 e1 v1 c2 e2 v2, v1 ≤ v2 → popularKey c1 e1 v1 ≤ popularKey c2 e2 v2) := by
  have hb1 : recencyBonus a1 = 500 := by
    unfold recencyBonus
    rw [if_pos h1]
  have hb2 : recencyBonus a2 = 200 := by
    unfold recencyBonus
    rw [if_neg (by omega), if_pos h2b]
  have hb3 : recencyBonus a3 = 50 := by
    unfold recencyBonus
    rw [if_neg (by omega), if_neg (by omega), if_pos h3b]
  have hb4 : recencyBonus a4 = 0 := by
    unfold recencyBonus
    rw [if_neg (by omega), if_neg (by omega), if_neg (by omega)]
  refine ⟨fun a => by simp [trendingScore, engagement], hb1, hb2, hb3, hb4, ?_, ?_, ?_, ?_⟩
  · rw [hb1, hb2]; omega
  · rw [hb2, hb3]; omega
  · rw [hb3, hb4]; omega
  · intro c1 e1 v1 c2 e2 v2 hv
    simpa [popularKey] using hv

/-- C8 witness at concrete ages in each band. -/
theorem c8_witness : recencyBonus 100000 < recencyBonus 3600 ∧ recencyBonus 700000 = 0 := by
  have h := c8_amended 1 1 1 3600 100000 300000 700000
    (by decide) (by decide) (by decide) (by decide) (by decide) (by decide)
  exact ⟨h.2.2.2.2.2.1, h.2.2.2.2.1⟩

/-- C8 counterexample: the popular order is not monotonic in the weighted
engagement sum: an item with engagement 1010 sorts below an item with
engagement 20 because only views are compared. -/
theorem c8_counterexample :
    engagement 0 0 20 ≤ engagement 100 0 10
    ∧ popularKey 100 0 10 < popularKey 0 0 20 := by
  decide

/- ---------------------------------------------------------------------
   C9
   --------------------------------------------------------------------- -/

/-- fetch_subreddit cannot tell a failed response from an empty page. -/
theorem fetch_normalize (r : Option (Nat × List Post)) :
    fetch_subreddit (normalizeResp r) = fetch_subreddit r := by
  cases r with
  | none => rfl
  | some p =>
    obtain ⟨code, posts⟩ := p
    by_cases h : code = 200
    · subst h; rfl
    · simp [normalizeResp, fetch_subreddit, h]

/-- run_scan is unchanged when every failed response is replaced by an
empty page: failures contribute zero candidates and do not affect the
iteration over the remaining sources. -/
theorem run_scan_normalize (fetcher : List Char → List Char → Option (Nat × List Post))
    (subs : List (List Char)) (store : List Row) :
    run_scan (fun sub sort => normalizeResp (fetcher sub sort)) subs store
      = run_scan fetcher subs store := by
  induction subs generalizing store with
  | nil => rfl
  | cons sub rest ih => simp [run_scan, fetch_normalize, ih]

/-- C9: a failed fetch (exception or non-200 status) yields the empty
candidate list, and a run over any source list behaves exactly as if
every failed response were an empty page, so no failure aborts the
iteration over the remaining sources.  (The embedding is total, so no
exception can escape fetch_subreddit by construction.) -/
theorem c9_thm (fetcher : List Char → List Char → Option (Nat × List Post))
    (subs : List (List Char)) (store : List Row)
    (r : Option (Nat × List Post)) (h : respFailed r = true) :
    fetch_subreddit r = []
    ∧ run_scan (fun sub sort => normalizeResp (fetcher sub sort)) subs store
        = run_scan fetcher subs store := by
  constructor
  · cases r with
    | none => rfl
    | some p =>
      obtain ⟨code, posts⟩ := p
      have hc : ¬(code = 200) := by simpa [respFailed] using h
      simp [fetch_subreddit, hc]
  · exact run_scan_normalize fetcher subs store

/-- C9 witness: an always-failing fetcher on one subreddit. -/
theorem c9_witness :
    fetch_subreddit (none : Option (Nat × List Post)) = []
    ∧ run_scan (fun sub sort => normalizeResp ((fun _ _ => none) sub sort))
        [str "robotics"] []
        = run_scan (fun _ _ => (none : Option (Nat × List Post))) [str "robotics"] [] :=
  c9_thm (fun _ _ => none) [str "robotics"] [] none (by decide)

/- ---------------------------------------------------------------------
   C10
   --------------------------------------------------------------------- -/

/-- C10: when the duplicate lookup raises (unreachable store), both
curators report not-a-duplicate, and add_video therefore proceeds to
insert the candidate instead of skipping it. -/
theorem c10_thm (p : Post) (store : List Row) (r : Row) (y u ttl : List Char)
    (yo : Option (List Char))
    (hrel : reddit_is_robot_content (postTitle p) (postSubreddit p) = true)
    (hrow : insertedRow p = some r) :
    redditVideoExistsDb none u yo ttl = false
    ∧ robotVideoExistsDb none y = false
    ∧ reddit_add_video_db none p store = (true, store ++ [r]) := by
  refine ⟨rfl, rfl, ?_⟩
  simp [reddit_add_video_db, redditVideoExistsDb, hrel, hrow]

/-- C10 witness: the store already contains the very row, yet with the
failed lookup the candidate is inserted a second time. -/
theorem c10_witness :
    redditVideoExistsDb none (str "u") none (str "t") = false
    ∧ robotVideoExistsDb none (str "y") = false
    ∧ reddit_add_video_db none pBad [rBad] = (true, [rBad, rBad]) :=
  c10_thm pBad [rBad] rBad (str "y") (str "u") (str "t") none (by decide) (by decide)

/- ---------------------------------------------------------------------
   C1: helper lemmas about re-running add_video and run_scan
   --------------------------------------------------------------------- -/

/-- The row inserted for a goodKey post is found again by the duplicate
check run on a store containing just that row. -/
theorem inserted_key (p : Post) (r : Row) (hk : goodKey p = true)
    (hr : insertedRow p = some r) :
    redditVideoExists [r] (postUrl p) (extract_youtube_id (postUrl p)) (postTitle p)
      = true := by
  unfold insertedRow at hr
  cases hyid : extract_youtube_id (postUrl p) with
  | some yid =>
    rw [hyid] at hr
    simp only [Option.some.injEq] at hr
    subst hr
    simp [redditVideoExists]
  | none =>
    rw [hyid] at hr
    unfold goodKey at hk
    rw [hyid] at hk
    simp only [Option.isSome_none, Bool.false_or, Bool.and_eq_true, decide_eq_true_eq] at hk
    by_cases hv : containsSub (str "v.redd.it") (postUrl p) = true
    · rw [if_pos hv] at hr
      simp only [Option.some.injEq] at hr
      subst hr
      simp [redditVideoExists]
    · by_cases hvid : p.is_video = true
      · rw [if_neg hv, if_pos hvid] at hr
        simp only [Option.some.injEq] at hr
        subst hr
        have ht : List.take 50 (List.take 200 (postTitle p)) = List.take 50 (postTitle p) := by
          rw [List.take_take]
          norm_num
        simp [redditVideoExists, hk.1, ht, hk.2]
      · simp [hv, hvid] at hr

/-- add_video only ever appends to the store. -/
theorem add_extends (p : Post) (s : List Row) :
    ∃ t, (reddit_add_video p s).2 = s ++ t := by
  by_cases hrel : reddit_is_robot_content (postTitle p) (postSubreddit p) = true
  · by_cases hex : redditVideoExists s (postUrl p) (extract_youtube_id (postUrl p))
        (postTitle p) = true
    · exact ⟨[], by simp [reddit_add_video, reddit_add_video_db, redditVideoExistsDb,
        hrel, hex]⟩
    · cases hrow : insertedRow p with
      | some r =>
        exact ⟨[r], by simp [reddit_add_video, reddit_add_video_db, redditVideoExistsDb,
          hrel, hex, hrow]⟩
      | none =>
        exact ⟨[], by simp [reddit_add_video, reddit_add_video_db, redditVideoExistsDb,
          hrel, hex, hrow]⟩
  · exact ⟨[], by simp [reddit_add_video, reddit_add_video_db, hrel]⟩

/-- Once the store extends the result of a first add_video call on a
goodKey post, a repeated call is a rejected no-op. -/
theorem add_settled (p : Post) (s sBig : List Row) (hk : goodKey p = true)
    (hext : ∃ t, sBig = (reddit_add_video p s).2 ++ t) :
    reddit_add_video p sBig = (false, sBig) := by
  obtain ⟨t, ht⟩ := hext
  by_cases hrel : reddit_is_robot_content (postTitle p) (postSubreddit p) = true
  · by_cases hex : redditVideoExists s (postUrl p) (extract_youtube_id (postUrl p))
        (postTitle p) = true
    · have hs : (reddit_add_video p s).2 = s := by
        simp [reddit_add_video, reddit_add_video_db, redditVideoExistsDb, hrel, hex]
      rw [hs] at ht
      subst ht
      have hex2 : redditVideoExists (s ++ t) (postUrl p) (extract_youtube_id (postUrl p))
          (postTitle p) = true :=
        redditVideoExists_mono s (s ++ t) _ _ _
          (fun r hr => List.mem_append_left t hr) hex
      simp [reddit_add_video, reddit_add_video_db, redditVideoExistsDb, hrel, hex2]
    · cases hrow : insertedRow p with
      | none =>
        have hs : (reddit_add_video p s).2 = s := by
          simp [reddit_add_video, reddit_add_video_db, redditVideoExistsDb, hrel, hex, hrow]
        rw [hs] at ht
        subst ht
        by_cases hex2 : redditVideoExists (s ++ t) (postUrl p)
            (extract_youtube_id (postUrl p)) (postTitle p) = true
        · simp [reddit_add_video, reddit_add_video_db, redditVideoExistsDb, hrel, hex2]
        · simp [reddit_add_video, reddit_add_video_db, redditVideoExistsDb, hrel, hex2, hrow]
      | some r =>
        have hs : (reddit_add_video p s).2 = s ++ [r] := by
          simp [reddit_add_video, reddit_add_video_db, redditVideoExistsDb, hrel, hex, hrow]
        rw [hs] at ht
        subst ht
        have hkey := inserted_key p r hk hrow
        have hex2 : redditVideoExists (s ++ r :: t) (postUrl p)
            (extract_youtube_id (postUrl p)) (postTitle p) = true := by
          refine redditVideoExists_mono [r] (s ++ r :: t) _ _ _ ?_ hkey
          intro x hx
          simp only [List.mem_singleton] at hx
          subst hx
          simp
        simp [reddit_add_video, reddit_add_video_db, redditVideoExistsDb, hrel, hex2]
  · simp [reddit_add_video, reddit_add_video_db, hrel]

/-- One scan pass only ever appends to the store. -/
theorem scan_extends (posts : List Post) (s : List Row) :
    ∃ t, (scanPosts posts s).2 = s ++ t := by
  induction posts generalizing s with
  | nil => exact ⟨[], by simp [scanPosts]⟩
  | cons p ps ih =>
    obtain ⟨t1, h1⟩ := add_extends p s
    obtain ⟨t2, h2⟩ := ih ((reddit_add_video p s).2)
    refine ⟨t1 ++ t2, ?_⟩
    simp only [scanPosts]
    rw [h2, h1, List.append_assoc]

/-- Once the store extends the result of a first scan pass over goodKey
posts, repeating the pass adds nothing. -/
theorem scan_settled : ∀ (posts : List Post) (s sBig : List Row),
    (∀ p ∈ posts, goodKey p = true) →
    (∃ t, sBig = (scanPosts posts s).2 ++ t) →
    scanPosts posts sBig = (0, sBig) := by
  intro posts
  induction posts with
  | nil => intro s sBig _ _; rfl
  | cons p ps ih =>
    intro s sBig hk hext
    obtain ⟨t, ht⟩ := hext
    have hstep : (scanPosts (p :: ps) s).2 = (scanPosts ps ((reddit_add_video p s).2)).2 := by
      simp [scanPosts]
    obtain ⟨t2, h2⟩ := scan_extends ps ((reddit_add_video p s).2)
    have hadd : reddit_add_video p sBig = (false, sBig) := by
      refine add_settled p s sBig (hk p (List.mem_cons_self p ps)) ⟨t2 ++ t, ?_⟩
      rw [ht, hstep, h2, List.append_assoc]
    have hrest : scanPosts ps sBig = (0, sBig) := by
      refine ih ((reddit_add_video p s).2) sBig
        (fun q hq => hk q (List.mem_cons_of_mem p hq)) ⟨t, ?_⟩
      rw [ht, hstep]
    simp [scanPosts, hadd, hrest]

/-- A whole run only ever appends to the store. -/
theorem run_extends (fetcher : List Char → List Char → Option (Nat × List Post)) :
    ∀ (subs : List (List Char)) (s : List Row),
    ∃ t, (run_scan fetcher subs s).2 = s ++ t := by
  intro subs
  induction subs with
  | nil => intro s; exact ⟨[], by simp [run_scan]⟩
  | cons sub rest ih =>
    intro s
    obtain ⟨t1, h1⟩ := scan_extends (fetch_subreddit (fetcher sub (str "top"))) s
    obtain ⟨t2, h2⟩ := scan_extends (fetch_subreddit (fetcher sub (str "hot")))
      ((scanPosts (fetch_subreddit (fetcher sub (str "top"))) s).2)
    obtain ⟨t3, h3⟩ := ih ((scanPosts (fetch_subreddit (fetcher sub (str "hot")))
      ((scanPosts (fetch_subreddit (fetcher sub (str "top"))) s).2)).2)
    refine ⟨t1 ++ (t2 ++ t3), ?_⟩
    simp only [run_scan]
    rw [h3, h2, h1]
    simp [List.append_assoc]

/-- Once the store extends the result of a first full run over goodKey
candidates, repeating the run adds nothing. -/
theorem run_settled (fetcher : List Char → List Char → Option (Nat × List Post)) :
    ∀ (subs : List (List Char)) (s sBig : List Row),
    (∀ sub sort p, p ∈ fetch_subreddit (fetcher sub sort) → goodKey p = true) →
    (∃ t, sBig = (run_scan fetcher subs s).2 ++ t) →
    run_scan fetcher subs sBig = (0, sBig) := by
  intro subs
  induction subs with
  | nil => intro s sBig _ _; rfl
  | cons sub rest ih =>
    intro s sBig hk hext
    obtain ⟨t, ht⟩ := hext
    have hstep : (run_scan fetcher (sub :: rest) s).2
        = (run_scan fetcher rest ((scanPosts (fetch_subreddit (fetcher sub (str "hot")))
            ((scanPosts (fetch_subreddit (fetcher sub (str "top"))) s).2)).2)).2 := by
      simp [run_scan]
    obtain ⟨t3, h3⟩ := run_extends fetcher rest
      ((scanPosts (fetch_subreddit (fetcher sub (str "hot")))
        ((scanPosts (fetch_subreddit (fetcher sub (str "top"))) s).2)).2)
    obtain ⟨t2, h2⟩ := scan_extends (fetch_subreddit (fetcher sub (str "hot")))
      ((scanPosts (fetch_subreddit (fetcher sub (str "top"))) s).2)
    have hs1 : scanPosts (fetch_subreddit (fetcher sub (str "top"))) sBig = (0, sBig) := by
      refine scan_settled _ s sBig (fun p hp => hk sub (str "top") p hp)
        ⟨t2 ++ (t3 ++ t), ?_⟩
      rw [ht, hstep, h3, h2]
      simp [List.append_assoc]
    have hs2 : scanPosts (fetch_subreddit (fetcher sub (str "hot"))) sBig = (0, sBig) := by
      refine scan_settled _ ((scanPosts (fetch_subreddit (fetcher sub (str "top"))) s).2)
        sBig (fun p hp => hk sub (str "hot") p hp) ⟨t3 ++ t, ?_⟩
      rw [ht, hstep, h3]
      simp [List.append_assoc]
    have hs3 : run_scan fetcher rest sBig = (0, sBig) := by
      refine ih ((scanPosts (fetch_subreddit (fetcher sub (str "hot")))
        ((scanPosts (fetch_subreddit (fetcher sub (str "top"))) s).2)).2) sBig hk ⟨t, ?_⟩
      rw [ht, hstep]
    simp [run_scan, hs1, hs2, hs3]

/-- C1 (amended): (a) whenever the duplicate check reports the key
present, add_video returns false without touching the store; (b) the
RobotCurator add_video is idempotent for candidates carrying a native id;
(c) re-running the Reddit scan over an unchanged candidate set adds zero
rows, provided every fetched candidate keeps a queried key: it yields a
YouTube id, or its nonempty title has a first-50-character prefix
unchanged by whitespace stripping.  (Without that proviso idempotence
fails; see the counterexample.) -/
theorem c1_amended (fetcher : List Char → List Char → Option (Nat × List Post))
    (subs : List (List Char)) (store : List Row)
    (hkeys : ∀ sub sort p, p ∈ fetch_subreddit (fetcher sub sort) → goodKey p = true) :
    (∀ p s, redditVideoExists s (postUrl p) (extract_youtube_id (postUrl p))
        (postTitle p) = true → reddit_add_video p s = (false, s))
    ∧ (∀ (vi : VideoInfo) (s : List Row) (y : List Char), vi.id = some y →
        robot_add_video vi ((robot_add_video vi s).2) = (false, (robot_add_video vi s).2))
    ∧ run_scan fetcher subs ((run_scan fetcher subs store).2)
        = (0, (run_scan fetcher subs store).2) := by
  refine ⟨?_, ?_, ?_⟩
  · intro p s hex
    by_cases hrel : reddit_is_robot_content (postTitle p) (postSubreddit p) = true
    · simp [reddit_add_video, reddit_add_video_db, redditVideoExistsDb, hrel, hex]
    · simp [reddit_add_video, reddit_add_video_db, hrel]
  · intro vi s y hid
    by_cases hrel : robot_is_robot_content vi.title vi.description = true
    · by_cases hex : robot_video_exists s y = true
      · have h1 : robot_add_video vi s = (false, s) := by
          simp [robot_add_video, hrel, hid, hex]
        rw [h1]
        simp [robot_add_video, hrel, hid, hex]
      · have h1 : robot_add_video vi s = (true, s ++ [⟨some y, vi.webpage_url,
            List.take 200 vi.title, robot_categorize_video vi.title⟩]) := by
          simp [robot_add_video, hrel, hid, hex]
        rw [h1]
        have hex2 : robot_video_exists (s ++ [⟨some y, vi.webpage_url,
            List.take 200 vi.title, robot_categorize_video vi.title⟩]) y = true := by
          simp [robot_video_exists]
        simp [robot_add_video, hrel, hid, hex2]
    · simp [robot_add_video, hrel]
  · exact run_settled fetcher subs store ((run_scan fetcher subs store).2) hkeys
      ⟨[], by simp⟩

/-- C1 witness: a second full run over the unchanged single-candidate
feed adds zero rows. -/
theorem c1_witness :
    run_scan (fun _ _ => some (200, [pGood])) [str "robotics"]
        ((run_scan (fun _ _ => some (200, [pGood])) [str "robotics"] []).2)
      = (0, (run_scan (fun _ _ => some (200, [pGood])) [str "robotics"] []).2) :=
  (c1_amended (fun _ _ => some (200, [pGood])) [str "robotics"] []
    (by
      intro sub sort p hp
      simp [fetch_subreddit] at hp
      subst hp
      decide)).2.2

/-- C1 counterexample: for the post pBad (no YouTube id, reddit_video
fallback URL different from the post URL, leading whitespace in the
title), the first call inserts a row, the duplicate check run after that
commit still reports no duplicate, a second call inserts again, and
re-running the scan over the unchanged singleton candidate set grows the
store from one row to two. -/
theorem c1_counterexample :
    (reddit_add_video pBad []).1 = true
    ∧ redditVideoExists ((reddit_add_video pBad []).2) (postUrl pBad)
        (extract_youtube_id (postUrl pBad)) (postTitle pBad) = false
    ∧ (reddit_add_video pBad ((reddit_add_video pBad []).2)).1 = true
    ∧ ((scanPosts [pBad] []).2).length = 1
    ∧ ((scanPosts [pBad] ((scanPosts [pBad] []).2)).2).length = 2 := by
  decide
